import Mathlib

/-
  Verification development for the async-crawler-simulation frontend.

  Shallow embedding of:
    - src/frontend/src/utils/validateUrl.js   (regex-based URL validator)
    - src/frontend/src/services/crawlService.js (Task Client)
    - src/frontend/src/App.js                 (Task Orchestrator: startCrawl,
      checkTaskStatus poll loop, React state fields)

  JavaScript values of type string-or-undefined are modelled as Option String
  (none = undefined).  The JS RegExp is embedded as a regular-expression
  datatype with a Brzozowski-derivative matcher; the `i` flag is modelled by
  lowercasing the ASCII letters of the input before matching the lowercase
  pattern (the pattern has no uppercase literals).
-/

namespace Crawler

/-- Regular expressions over characters: empty language, empty string,
character class (list of admissible characters), concatenation,
alternation, Kleene star. -/
inductive RE where
  | fail : RE
  | eps : RE
  | cls (cs : List Char) : RE
  | seq (a b : RE) : RE
  | alt (a b : RE) : RE
  | star (r : RE) : RE
deriving DecidableEq

/-- Does the regular expression accept the empty string? -/
def nullable : RE → Bool
  | .fail => false
  | .eps => true
  | .cls _ => false
  | .seq a b => nullable a && nullable b
  | .alt a b => nullable a || nullable b
  | .star _ => true

/-- Smart concatenation: collapses the empty language and the empty string. -/
def seqS : RE → RE → RE
  | .fail, _ => .fail
  | .eps, b => b
  | _, .fail => .fail
  | a, b => .seq a b

/-- Smart alternation: collapses the empty language. -/
def altS : RE → RE → RE
  | .fail, b => b
  | a, .fail => a
  | a, b => .alt a b

/-- Brzozowski derivative of a regular expression by a character. -/
def deriv : RE → Char → RE
  | .fail, _ => .fail
  | .eps, _ => .fail
  | .cls cs, c => if c ∈ cs then .eps else .fail
  | .seq a b, c =>
      if nullable a then altS (seqS (deriv a c) b) (deriv b c)
      else seqS (deriv a c) b
  | .alt a b, c => altS (deriv a c) (deriv b c)
  | .star r, c => seqS (deriv r c) (.star r)

/-- Full (anchored) match of a character list against a regular expression. -/
def rmatch (r : RE) (s : List Char) : Bool :=
  nullable (s.foldl deriv r)

/-- Single-character literal. -/
def chr (c : Char) : RE := .cls [c]

/-- Literal string as a regular expression. -/
def strRE (s : String) : RE :=
  s.data.foldr (fun c r => .seq (chr c) r) .eps

/-- `r?` from the source pattern. -/
def optRE (r : RE) : RE := .alt .eps r

/-- `r+` from the source pattern. -/
def plusRE (r : RE) : RE := .seq r (.star r)

/-- The lowercase ASCII letters, the range a-z of the source pattern. -/
def lcLetters : List Char :=
  ['a','b','c','d','e','f','g','h','i','j','k','l','m',
   'n','o','p','q','r','s','t','u','v','w','x','y','z']

/-- The decimal digits, the class d of the source pattern. -/
def digitChars : List Char :=
  ['0','1','2','3','4','5','6','7','8','9']

/-- Characters of the source class for letters and digits. -/
def alnumChars : List Char := lcLetters ++ digitChars

/-- Characters of the source class for letters, digits and hyphen. -/
def alnumDashChars : List Char := alnumChars ++ ['-']

/-- Characters admitted inside a path segment by the source pattern. -/
def pathChars : List Char := ['-'] ++ alnumChars ++ ['%','_','.','~','+']

/-- Characters admitted inside the query string by the source pattern. -/
def queryChars : List Char :=
  [';','&'] ++ alnumChars ++ ['%','_','.','~','+','=','-']

/-- Characters admitted inside the fragment by the source pattern. -/
def fragChars : List Char := ['-'] ++ alnumChars ++ ['_']

/-- ASCII lowercasing, modelling the case-insensitive flag of the source
RegExp on the characters the pattern can mention. -/
def lowerAscii (c : Char) : Char :=
  if 'A' ≤ c ∧ c ≤ 'Z' then Char.ofNat (c.toNat + 32) else c

/-- Source pattern piece for the protocol. -/
def schemeRE : RE :=
  optRE (.seq (strRE "http") (.seq (optRE (chr 's')) (strRE "://")))

/-- Source pattern piece for one domain label. -/
def labelRE : RE :=
  .seq (.cls alnumChars)
    (.star (.seq (.star (.cls alnumDashChars)) (.cls alnumChars)))

/-- Source pattern piece for a dotted domain name ending in an alphabetic
top-level label of length at least two. -/
def domainRE : RE :=
  .seq (plusRE (.seq labelRE (chr '.')))
    (.seq (.cls lcLetters) (plusRE (.cls lcLetters)))

/-- Source pattern piece for one to three digits. -/
def d13RE : RE :=
  .seq (.cls digitChars) (optRE (.seq (.cls digitChars) (optRE (.cls digitChars))))

/-- Source pattern piece for a dotted-quad IPv4 address. -/
def ipv4RE : RE :=
  .seq (.seq d13RE (chr '.'))
    (.seq (.seq d13RE (chr '.')) (.seq (.seq d13RE (chr '.')) d13RE))

/-- Source pattern piece for the host: domain name or IPv4 address. -/
def hostRE : RE := .alt domainRE ipv4RE

/-- Source pattern piece for the optional port. -/
def portRE : RE := optRE (.seq (chr ':') (plusRE (.cls digitChars)))

/-- Source pattern piece for the path. -/
def pathRE : RE := .star (.seq (chr '/') (.star (.cls pathChars)))

/-- Source pattern piece for the optional query string. -/
def queryRE : RE := optRE (.seq (chr '?') (.star (.cls queryChars)))

/-- Source pattern piece for the optional fragment. -/
def fragRE : RE := optRE (.seq (chr '#') (.star (.cls fragChars)))

/-- The anchored URL pattern of validateUrl.js. -/
def urlRE : RE :=
  .seq schemeRE (.seq hostRE (.seq portRE (.seq pathRE (.seq queryRE fragRE))))

/-- validateUrl from src/frontend/src/utils/validateUrl.js: tests the input
against the anchored case-insensitive URL pattern. -/
def validateUrl (s : String) : Bool :=
  rmatch urlRE (s.data.map lowerAscii)

/-- An HTTP response as seen by the fetch calls in crawlService.js: a numeric
status code and an already-parsed JSON body. -/
structure HttpResp (β : Type) where
  status : Nat
  body : β
deriving DecidableEq

/-- The ok field of a fetch Response: status in the range 200 to 299. -/
def respOk (status : Nat) : Bool := 200 ≤ status && status < 300

/-- The JSON body returned by POST /start-crawl, with the fields the frontend
or the documented backend contract may mention; a field that is absent from
the JSON object is none (undefined in JavaScript). -/
structure StartResponse where
  task_id : Option String := none
  taskId : Option String := none
  status : Option String := none
  startUrl : Option String := none
deriving DecidableEq

/-- The JSON body returned by GET /task-status/:id; absent fields are none. -/
structure StatusResponse where
  status : Option String := none
  crawled_data : Option (List (String × List String)) := none
deriving DecidableEq

/-- The outcome of a fetch at the transport level: either the promise rejects
with an error message, or an HTTP response arrives. -/
abbrev Transport (β : Type) := Except String (HttpResp β)

namespace crawlService

/-- startCrawl from src/frontend/src/services/crawlService.js: propagates a
transport failure, throws an HTTP error on a non-ok status, and otherwise
returns the parsed body verbatim. -/
def startCrawl (t : Transport StartResponse) : Except String StartResponse :=
  match t with
  | .error e => .error e
  | .ok r =>
      if respOk r.status then .ok r.body
      else .error ("HTTP error! status: " ++ toString r.status)

/-- checkTaskStatus from src/frontend/src/services/crawlService.js:
propagates a transport failure; on a non-ok status throws a dedicated
not-found error for 404 and a generic HTTP error otherwise; on ok returns the
parsed body verbatim. -/
def checkTaskStatus (t : Transport StatusResponse) : Except String StatusResponse :=
  match t with
  | .error e => .error e
  | .ok r =>
      if respOk r.status then .ok r.body
      else if r.status == 404 then .error "Task not found."
      else .error ("HTTP error! status: " ++ toString r.status)

end crawlService

namespace App

/-- The React state of the App component (App.js useState hooks).
String-valued hooks that can receive an undefined JSON field are modelled as
Option String. -/
structure AppState where
  startUrl : String
  taskId : Option String
  taskStatus : Option String
  crawledData : Option (List (String × List String))
  loading : Bool
  isUrlValid : Bool
  errorMessage : String
deriving DecidableEq

/-- Initial hook values of App.js: empty strings, empty object, not loading,
URL assumed valid, no error message. -/
def initialApp : AppState :=
  { startUrl := "", taskId := some "", taskStatus := some "",
    crawledData := some [], loading := false, isUrlValid := true,
    errorMessage := "" }

/-- One live setInterval created by checkTaskStatus: its identifier, the
taskId argument captured by the callback closure, the interval period passed
to setInterval (2000 in the source), and how many times it has fired.  The
next fire happens period * (fires + 1) milliseconds after creation. -/
structure Interval where
  iid : Nat
  arg : Option String
  period : Nat
  fires : Nat
deriving DecidableEq

/-- A network call issued by the component: a submission with its start URL,
or a status fetch with the id it polls for and the time (milliseconds after
the creation of its interval) at which the fetch fires. -/
inductive NetCall where
  | submit (startUrl : String) : NetCall
  | statusFetch (arg : Option String) (time : Nat) : NetCall
deriving DecidableEq

/-- The whole system: component state, the set of live intervals, the next
fresh interval identifier, and the log of network calls issued so far. -/
structure Sys where
  app : AppState
  intervals : List Interval
  nextIid : Nat
  calls : List NetCall
deriving DecidableEq

/-- The system as first rendered: initial hooks, no interval, no calls. -/
def initialSys : Sys := { app := initialApp, intervals := [], nextIid := 0, calls := [] }

/-- handleUrlChange from App.js: stores the typed URL and resets validity. -/
def handleUrlChange (sys : Sys) (s : String) : Sys :=
  { sys with app := { sys.app with startUrl := s, isUrlValid := true } }

/-- startCrawl from App.js.  The environment supplies the transport outcome
of the POST request.  An invalid URL is refused before any network call;
otherwise loading, validity and the error message are set, the submission
request is issued, and on success the task id from the task_id field of the
body is stored and a 2000 ms polling interval for that id is created, while
on failure the error message is set and loading cleared. -/
def startCrawl (sys : Sys) (t : Transport StartResponse) : Sys :=
  if validateUrl sys.app.startUrl = false then
    { sys with app := { sys.app with isUrlValid := false, errorMessage := "Invalid URL." } }
  else
    let app1 : AppState :=
      { sys.app with loading := true, isUrlValid := true, errorMessage := "" }
    let sys1 : Sys :=
      { sys with app := app1, calls := sys.calls ++ [.submit sys.app.startUrl] }
    match crawlService.startCrawl t with
    | .ok data =>
        { sys1 with
          app := { app1 with taskId := data.task_id }
          intervals := sys1.intervals ++
            [{ iid := sys1.nextIid, arg := data.task_id, period := 2000, fires := 0 }]
          nextIid := sys1.nextIid + 1 }
    | .error e =>
        { sys1 with
          app := { app1 with errorMessage := "Network error: " ++ e, loading := false } }

/-- One firing of the setInterval callback installed by checkTaskStatus in
App.js, for the interval with identifier iid; the environment supplies the
transport outcome of the status fetch.  A cleared interval never fires.  A
live interval logs its fetch at its scheduled time; on a successful fetch the
status is stored, and a terminal status clears the interval, clears loading,
and stores the crawled data (completed) or the failure message (failed); a
non-terminal status leaves the interval scheduled at the same period.  A
failed fetch sets the network error message, clears the interval and clears
loading. -/
def pollTick (sys : Sys) (iid : Nat) (t : Transport StatusResponse) : Sys :=
  match sys.intervals.find? (fun i => i.iid == iid) with
  | none => sys
  | some itv =>
      let sys1 : Sys :=
        { sys with calls := sys.calls ++ [.statusFetch itv.arg (itv.period * (itv.fires + 1))] }
      match crawlService.checkTaskStatus t with
      | .ok data =>
          let app1 : AppState := { sys1.app with taskStatus := data.status }
          if data.status == some "completed" || data.status == some "failed" then
            let sys2 : Sys :=
              { sys1 with
                app := { app1 with loading := false }
                intervals := sys1.intervals.filter (fun i => i.iid != iid) }
            if data.status == some "completed" then
              { sys2 with app := { sys2.app with crawledData := data.crawled_data } }
            else
              { sys2 with app := { sys2.app with errorMessage := "Task failed." } }
          else
            { sys1 with
              app := app1
              intervals := sys1.intervals.map
                (fun i => if i.iid == iid then { i with fires := i.fires + 1 } else i) }
      | .error e =>
          { sys1 with
            app := { sys1.app with errorMessage := "Network error: " ++ e, loading := false }
            intervals := sys1.intervals.filter (fun i => i.iid != iid) }

/-- The externally triggered events of the component: typing a URL,
invoking startCrawl (button click or Enter key), and the firing of one
installed interval callback.  Each event carries the transport outcome the
environment chooses for the network call the handler makes. -/
inductive Ev where
  | setUrl (s : String) : Ev
  | start (t : Transport StartResponse) : Ev
  | tick (iid : Nat) (t : Transport StatusResponse) : Ev

/-- One event step of the system. -/
def step (sys : Sys) (e : Ev) : Sys :=
  match e with
  | .setUrl s => handleUrlChange sys s
  | .start t => startCrawl sys t
  | .tick iid t => pollTick sys iid t

/-- Run a sequence of events from the freshly rendered component. -/
def run (evs : List Ev) : Sys := evs.foldl step initialSys

end App

/- Concrete inputs used by the scenario theorems and witnesses. -/

/-- A freshly rendered component with a valid URL typed into the field. -/
def seedSys : App.Sys := App.run [.setUrl "https://a.com"]

/-- A submission response whose body carries the field task_id. -/
def okStartBody : StartResponse := { task_id := some "t1" }

/-- A component that has submitted successfully and is polling for t1
through interval 0. -/
def loopSys : App.Sys := App.startCrawl seedSys (.ok ⟨200, okStartBody⟩)

/-- The crawl result delivered by the stale poll of the supersede trace. -/
def staleData : List (String × List String) := [("https://a.com", ["https://a.com/x"])]

/-- Supersede trace before the stale poll fires: a first crawl of
https://a.com is polling when a second crawl of https://b.com is started. -/
def staleTrace4 : List App.Ev :=
  [.setUrl "https://a.com", .start (.ok ⟨200, { task_id := some "t1" }⟩),
   .setUrl "https://b.com", .start (.ok ⟨200, { task_id := some "t2" }⟩)]

/-- Supersede trace after the poll loop of the first (superseded) crawl
fires with a completed status and crawl data. -/
def staleTrace5 : List App.Ev :=
  staleTrace4 ++
    [.tick 0 (.ok ⟨200, { status := some "completed", crawled_data := some staleData }⟩)]

/-- A 200 submission response whose body follows the documented backend
contract: it carries taskId, status and startUrl, and no task_id field. -/
def contractResp : HttpResp StartResponse :=
  ⟨200, { taskId := some "t1", status := some "initiated", startUrl := some "https://a.com" }⟩

/-- Trace submitting a crawl whose backend answer follows the documented
contract. -/
def contractTrace : List App.Ev :=
  [.setUrl "https://a.com", .start (.ok contractResp)]

/-- The crawl result of the first lifecycle of the carry-over trace. -/
def carryData : List (String × List String) := [("https://a.com", ["https://a.com/y"])]

/-- Carry-over trace: a first crawl completes with data, then a second
crawl of a different URL is started. -/
def carryTrace : List App.Ev :=
  [.setUrl "https://a.com", .start (.ok ⟨200, { task_id := some "t1" }⟩),
   .tick 0 (.ok ⟨200, { status := some "completed", crawled_data := some carryData }⟩),
   .setUrl "https://b.com", .start (.ok ⟨200, { task_id := some "t2" }⟩)]

/-- The crawl result of Scenario A of the specification. -/
def scenarioAData : List (String × List String) :=
  [("https://example.com", ["https://example.com/about"])]

/-- Scenario A of the specification: seed https://example.com, a successful
submission, two in_progress polls, then a completed poll with crawl data. -/
def scenarioATrace : List App.Ev :=
  [.setUrl "https://example.com",
   .start (.ok ⟨200, { taskId := some "t1", status := some "initiated",
                       startUrl := some "https://example.com" }⟩),
   .tick 0 (.ok ⟨200, { status := some "in_progress" }⟩),
   .tick 0 (.ok ⟨200, { status := some "in_progress" }⟩),
   .tick 0 (.ok ⟨200, { status := some "completed", crawled_data := some scenarioAData }⟩)]

/-- A freshly rendered component with an invalid seed typed into the field. -/
def invalidSys : App.Sys := App.run [.setUrl "not a url"]

/- Helper lemmas. -/

/-- The empty language stays empty under derivatives. -/
theorem foldl_deriv_fail (l : List Char) : List.foldl deriv RE.fail l = RE.fail := by
  induction l with
  | nil => rfl
  | cons c l ih => simpa [deriv] using ih

/-- After removing the interval with identifier iid, no interval with that
identifier can be found. -/
theorem find?_filter_ne (l : List App.Interval) (iid : Nat) :
    (l.filter (fun i => i.iid != iid)).find? (fun i => i.iid == iid) = none := by
  induction l with
  | nil => rfl
  | cons a l ih =>
      by_cases h : a.iid = iid
      · simp [List.filter_cons, h, ih]
      · simp [List.filter_cons, h, List.find?_cons, ih]

/-- A tick for an interval identifier that is not live does nothing: a
cleared setInterval never fires again. -/
theorem pollTick_of_find_none (sys : App.Sys) (iid : Nat) (ft : Transport StatusResponse)
    (h : sys.intervals.find? (fun i => i.iid == iid) = none) :
    App.pollTick sys iid ft = sys := by
  unfold App.pollTick
  rw [h]

/-- String lengths separate the validation message from every network error
message. -/
theorem invalid_ne_network (m : String) : "Invalid URL." ≠ "Network error: " ++ m := by
  intro h
  have h2 := congrArg String.length h
  rw [String.length_append] at h2
  have e1 : String.length "Invalid URL." = 12 := rfl
  have e2 : String.length "Network error: " = 15 := rfl
  rw [e1, e2] at h2
  omega

/-- C4: the URL validator is a total pure boolean predicate: it accepts
inputs with an optional http or https scheme (absent scheme permitted), a
hostname of dot-separated labels or a dotted-quad IPv4 address, an optional
port, and optional path, query and fragment, case-insensitively; it returns
false on every input with the ftp scheme and on malformed hosts or
unparseable input. -/
theorem validateUrlSpec :
    (∀ s : String, validateUrl s = true ∨ validateUrl s = false) ∧
    validateUrl "https://www.example.com" = true ∧
    validateUrl "http://example.com" = true ∧
    validateUrl "example.com" = true ∧
    validateUrl "127.0.0.1:8080/path?a=b#frag" = true ∧
    validateUrl "HTTPS://WWW.EXAMPLE.COM" = true ∧
    (∀ rest : String, validateUrl ("ftp://" ++ rest) = false) ∧
    validateUrl "not a url" = false ∧
    validateUrl "http://" = false ∧
    validateUrl "a..b" = false ∧
    validateUrl "a-.com" = false ∧
    validateUrl "" = false := by
  refine ⟨fun s => Bool.eq_false_or_eq_true (validateUrl s),
    by decide, by decide, by decide, by decide, by decide, ?_,
    by decide, by decide, by decide, by decide, by decide⟩
  intro rest
  obtain ⟨l⟩ := rest
  have hdata : (("ftp://" : String) ++ String.mk l).data = "ftp://".data ++ l := rfl
  unfold validateUrl rmatch
  rw [hdata, List.map_append, List.foldl_append]
  have hpre : List.foldl deriv urlRE (List.map lowerAscii "ftp://".data) = RE.fail := by
    decide
  rw [hpre, foldl_deriv_fail]
  rfl

/-- C8: the Task Client raises an error exactly when the backend response is
non-success or the transport fails: submission returns the parsed body on an
ok status and an HTTP error otherwise; the status fetch returns the parsed
body on an ok status, the dedicated not-found message exactly on 404, a
generic HTTP error on any other non-ok status, and propagates transport
failures; neither function retries. -/
theorem taskClientErrors :
    (∀ r : HttpResp StartResponse, respOk r.status = true →
        crawlService.startCrawl (.ok r) = .ok r.body) ∧
    (∀ r : HttpResp StartResponse, respOk r.status = false →
        crawlService.startCrawl (.ok r) = .error ("HTTP error! status: " ++ toString r.status)) ∧
    (∀ e : String, crawlService.startCrawl (.error e) = .error e) ∧
    (∀ r : HttpResp StatusResponse, respOk r.status = true →
        crawlService.checkTaskStatus (.ok r) = .ok r.body) ∧
    (∀ r : HttpResp StatusResponse, r.status = 404 →
        crawlService.checkTaskStatus (.ok r) = .error "Task not found.") ∧
    (∀ r : HttpResp StatusResponse, respOk r.status = false → r.status ≠ 404 →
        crawlService.checkTaskStatus (.ok r) = .error ("HTTP error! status: " ++ toString r.status)) ∧
    (∀ e : String, crawlService.checkTaskStatus (.error e) = .error e) ∧
    (∀ n : Nat, "Task not found." ≠ "HTTP error! status: " ++ toString n) := by
  refine ⟨?_, ?_, fun e => rfl, ?_, ?_, ?_, fun e => rfl, ?_⟩
  · intro r h
    simp [crawlService.startCrawl, h]
  · intro r h
    simp [crawlService.startCrawl, h]
  · intro r h
    simp [crawlService.checkTaskStatus, h]
  · intro r h
    obtain ⟨st, body⟩ := r
    simp only at h
    subst h
    rfl
  · intro r h h4
    simp [crawlService.checkTaskStatus, h, h4]
  · intro n h
    have h2 := congrArg String.length h
    rw [String.length_append] at h2
    have e1 : String.length "Task not found." = 15 := rfl
    have e2 : String.length "HTTP error! status: " = 20 := rfl
    rw [e1, e2] at h2
    omega

/-- C9: the crawled-data mapping is written only by a poll whose status is
completed, and no poll ever changes the stored task id: for every tick,
either crawledData is unchanged, or the fetch succeeded with status
completed and crawledData is its payload. -/
theorem crawledDataOnlyOnCompleted :
    ∀ (sys : App.Sys) (iid : Nat) (ft : Transport StatusResponse),
      (App.pollTick sys iid ft).app.taskId = sys.app.taskId ∧
      ((App.pollTick sys iid ft).app.crawledData = sys.app.crawledData ∨
        ∃ d : StatusResponse, crawlService.checkTaskStatus ft = .ok d ∧
          d.status = some "completed" ∧
          (App.pollTick sys iid ft).app.crawledData = d.crawled_data) := by
  intro sys iid ft
  unfold App.pollTick
  cases hfind : sys.intervals.find? (fun i => i.iid == iid) with
  | none => exact ⟨rfl, Or.inl rfl⟩
  | some itv =>
      cases hsvc : crawlService.checkTaskStatus ft with
      | error e => exact ⟨rfl, Or.inl rfl⟩
      | ok d =>
          by_cases hc : d.status = some "completed"
          · refine ⟨by simp [hc], Or.inr ⟨d, rfl, hc, by simp [hc]⟩⟩
          · by_cases hf : d.status = some "failed"
            · exact ⟨by simp [hc, hf], Or.inl (by simp [hc, hf])⟩
            · exact ⟨by simp [hc, hf], Or.inl (by simp [hc, hf])⟩

/-- C1 counterexample: after a second start call is issued while the first
task is polling, two poll loops are live at once, and the completed poll of
the superseded first lifecycle overwrites taskStatus and crawledData of the
current snapshot, whose task id is already the one of the second lifecycle. -/
theorem staleTickMutatesSnapshot :
    (App.run staleTrace4).intervals.length = 2 ∧
    (App.run staleTrace5).app.taskId = some "t2" ∧
    (App.run staleTrace5).app.taskStatus = some "completed" ∧
    (App.run staleTrace5).app.crawledData = some staleData ∧
    App.run staleTrace5 ≠ App.run staleTrace4 := by
  decide

/-- C1 amended: a start call cancels nothing: every interval live before the
call is still live after it, and a successful status fetch of any live
interval, superseded or current, overwrites taskStatus of the snapshot; a
poll loop ends only through its own terminal or failed fetch. -/
theorem startCancelsNoInterval :
    ∀ (sys : App.Sys) (t : Transport StartResponse),
      (∀ i ∈ sys.intervals, i ∈ (App.startCrawl sys t).intervals) ∧
      ∀ (iid : Nat) (ft : Transport StatusResponse) (d : StatusResponse),
        crawlService.checkTaskStatus ft = .ok d →
        (sys.intervals.find? (fun i => i.iid == iid)).isSome = true →
        (App.pollTick sys iid ft).app.taskStatus = d.status := by
  intro sys t
  constructor
  · intro i hi
    unfold App.startCrawl
    by_cases h : validateUrl sys.app.startUrl = false
    · simp only [if_pos h]
      exact hi
    · simp only [if_neg h]
      cases hsvc : crawlService.startCrawl t with
      | ok d => exact List.mem_append_left _ hi
      | error e => exact hi
  · intro iid ft d hsvc hsome
    cases hfind : sys.intervals.find? (fun i => i.iid == iid) with
    | none => rw [hfind] at hsome; exact absurd hsome (by simp)
    | some itv =>
        unfold App.pollTick
        rw [hfind, hsvc]
        by_cases hc : d.status = some "completed"
        · simp [hc]
        · by_cases hf : d.status = some "failed"
          · simp [hc, hf]
          · simp [hc, hf]

/-- C2 counterexample: when the 200 body follows the documented backend
contract and carries the id only in the field taskId, the Task Client hands
it to the orchestrator verbatim, the stored handle is undefined rather than
t1, and the poll loop is created for that undefined handle. -/
theorem contractBodyLeavesHandleUndefined :
    crawlService.startCrawl (.ok contractResp) = .ok contractResp.body ∧
    (App.run contractTrace).app.taskId = none ∧
    (App.run contractTrace).app.taskId ≠ some "t1" ∧
    (App.run contractTrace).intervals =
      [{ iid := 0, arg := none, period := 2000, fires := 0 }] := by
  exact ⟨rfl, by decide, by decide, by decide⟩

/-- C2 amended: the Task Client performs no field normalization: on an ok
status it returns the parsed body verbatim.  The orchestrator stores the
field task_id of that body as the current handle (undefined when the body
follows the documented taskId contract) and every status fetch of the
resulting poll loop is issued for exactly that stored value. -/
theorem clientReturnsBodyVerbatim :
    (∀ r : HttpResp StartResponse, respOk r.status = true →
        crawlService.startCrawl (.ok r) = .ok r.body) ∧
    (∀ (sys : App.Sys) (t : Transport StartResponse) (d : StartResponse),
        validateUrl sys.app.startUrl = true →
        crawlService.startCrawl t = .ok d →
        (App.startCrawl sys t).app.taskId = d.task_id ∧
        (App.startCrawl sys t).intervals = sys.intervals ++
          [{ iid := sys.nextIid, arg := d.task_id, period := 2000, fires := 0 }]) ∧
    (∀ (sys : App.Sys) (iid : Nat) (itv : App.Interval) (ft : Transport StatusResponse),
        sys.intervals.find? (fun i => i.iid == iid) = some itv →
        ∃ time : Nat,
          (App.pollTick sys iid ft).calls = sys.calls ++ [.statusFetch itv.arg time]) := by
  refine ⟨?_, ?_, ?_⟩
  · intro r h
    simp [crawlService.startCrawl, h]
  · intro sys t d h hsvc
    have h1 : ¬ validateUrl sys.app.startUrl = false := by simp [h]
    unfold App.startCrawl
    rw [if_neg h1, hsvc]
    exact ⟨rfl, rfl⟩
  · intro sys iid itv ft hfind
    refine ⟨itv.period * (itv.fires + 1), ?_⟩
    unfold App.pollTick
    cases hfind2 : sys.intervals.find? (fun i => i.iid == iid) with
    | none => rw [hfind2] at hfind; exact Option.noConfusion hfind
    | some itv2 =>
        rw [hfind2] at hfind
        injection hfind with hh
        subst hh
        cases hsvc : crawlService.checkTaskStatus ft with
        | error e => rfl
        | ok d =>
            by_cases hc : d.status = some "completed"
            · simp [hc]
            · by_cases hf : d.status = some "failed"
              · simp [hc, hf]
              · simp [hc, hf]

/-- C3 counterexample: a first crawl completes with data, then a fresh start
call succeeds for a new URL; right after the new start, taskStatus and
crawledData still hold the values produced by the previous lifecycle. -/
theorem newStartRetainsOldSnapshot :
    (App.run carryTrace).app.taskId = some "t2" ∧
    (App.run carryTrace).app.taskStatus = some "completed" ∧
    (App.run carryTrace).app.crawledData = some carryData := by
  decide

/-- C3 amended: Completed and Failed are terminal: a poll observing them
clears its own interval and a cleared interval never fires again; a fresh
start call replaces the task id on successful submission, but taskStatus and
crawledData carry over from the previous lifecycle until the new lifecycle
itself overwrites them. -/
theorem terminalAndCarryOver :
    (∀ (sys : App.Sys) (iid : Nat) (ft : Transport StatusResponse),
        sys.intervals.find? (fun i => i.iid == iid) = none →
        App.pollTick sys iid ft = sys) ∧
    (∀ (sys : App.Sys) (iid : Nat) (ft : Transport StatusResponse) (d : StatusResponse),
        crawlService.checkTaskStatus ft = .ok d →
        (d.status = some "completed" ∨ d.status = some "failed") →
        (App.pollTick sys iid ft).intervals.find? (fun i => i.iid == iid) = none) ∧
    (∀ (sys : App.Sys) (t : Transport StartResponse),
        (App.startCrawl sys t).app.taskStatus = sys.app.taskStatus ∧
        (App.startCrawl sys t).app.crawledData = sys.app.crawledData) ∧
    (∀ (sys : App.Sys) (t : Transport StartResponse) (d : StartResponse),
        validateUrl sys.app.startUrl = true →
        crawlService.startCrawl t = .ok d →
        (App.startCrawl sys t).app.taskId = d.task_id) := by
  refine ⟨pollTick_of_find_none, ?_, ?_, ?_⟩
  · intro sys iid ft d hsvc hterm
    cases hfind : sys.intervals.find? (fun i => i.iid == iid) with
    | none => rw [pollTick_of_find_none sys iid ft hfind]; exact hfind
    | some itv =>
        unfold App.pollTick
        rw [hfind, hsvc]
        rcases hterm with hc | hf
        · simp only [hc]
          rw [if_pos (by simp), if_pos (by simp)]
          exact find?_filter_ne _ _
        · rcases Decidable.em (d.status = some "completed") with hc | hc
          · simp only [hc]
            rw [if_pos (by simp), if_pos (by simp)]
            exact find?_filter_ne _ _
          · simp only [hf]
            rw [if_pos (by simp), if_neg (by simp [show d.status ≠ some "completed" from hc, hf])]
            exact find?_filter_ne _ _
  · intro sys t
    unfold App.startCrawl
    by_cases h : validateUrl sys.app.startUrl = false
    · rw [if_pos h]
      exact ⟨rfl, rfl⟩
    · rw [if_neg h]
      cases hsvc : crawlService.startCrawl t with
      | ok d => exact ⟨rfl, rfl⟩
      | error e => exact ⟨rfl, rfl⟩
  · intro sys t d h hsvc
    have h1 : ¬ validateUrl sys.app.startUrl = false := by simp [h]
    unfold App.startCrawl
    rw [if_neg h1, hsvc]

/-- C5: the poll loop fetches at a fixed 2000 ms cadence with no backoff:
the interval created by a successful start has period 2000; a fetch with a
non-terminal status stores the status, logs its fetch at period times the
number of the firing, and keeps the interval live at the same period; a
fetch with status completed stops the loop and stores the result payload;
and Scenario A ends Completed with its crawl data after exactly three polls
at 2000, 4000 and 6000 ms. -/
theorem pollLoopCadence :
    (∀ (sys : App.Sys) (t : Transport StartResponse) (d : StartResponse),
        validateUrl sys.app.startUrl = true →
        crawlService.startCrawl t = .ok d →
        (App.startCrawl sys t).intervals = sys.intervals ++
          [{ iid := sys.nextIid, arg := d.task_id, period := 2000, fires := 0 }]) ∧
    (∀ (sys : App.Sys) (iid : Nat) (itv : App.Interval) (ft : Transport StatusResponse)
        (d : StatusResponse),
        sys.intervals.find? (fun i => i.iid == iid) = some itv →
        crawlService.checkTaskStatus ft = .ok d →
        d.status ≠ some "completed" → d.status ≠ some "failed" →
        (App.pollTick sys iid ft).app.taskStatus = d.status ∧
        (App.pollTick sys iid ft).calls =
          sys.calls ++ [.statusFetch itv.arg (itv.period * (itv.fires + 1))] ∧
        (App.pollTick sys iid ft).intervals = sys.intervals.map
          (fun i => if i.iid == iid then { i with fires := i.fires + 1 } else i)) ∧
    (∀ (sys : App.Sys) (iid : Nat) (itv : App.Interval) (ft : Transport StatusResponse)
        (d : StatusResponse),
        sys.intervals.find? (fun i => i.iid == iid) = some itv →
        crawlService.checkTaskStatus ft = .ok d →
        d.status = some "completed" →
        (App.pollTick sys iid ft).intervals.find? (fun i => i.iid == iid) = none ∧
        (App.pollTick sys iid ft).app.taskStatus = some "completed" ∧
        (App.pollTick sys iid ft).app.crawledData = d.crawled_data ∧
        (App.pollTick sys iid ft).app.loading = false) ∧
    ((App.run scenarioATrace).app.taskStatus = some "completed" ∧
     (App.run scenarioATrace).app.crawledData = some scenarioAData ∧
     (App.run scenarioATrace).intervals = [] ∧
     (App.run scenarioATrace).app.loading = false ∧
     (App.run scenarioATrace).calls = [.submit "https://example.com",
        .statusFetch none 2000, .statusFetch none 4000, .statusFetch none 6000]) := by
  refine ⟨?_, ?_, ?_, by decide⟩
  · intro sys t d h hsvc
    have h1 : ¬ validateUrl sys.app.startUrl = false := by simp [h]
    unfold App.startCrawl
    rw [if_neg h1, hsvc]
  · intro sys iid itv ft d hfind hsvc hc hf
    unfold App.pollTick
    cases hfind2 : sys.intervals.find? (fun i => i.iid == iid) with
    | none => rw [hfind2] at hfind; exact Option.noConfusion hfind
    | some itv2 =>
        rw [hfind2] at hfind
        injection hfind with hh
        subst hh
        cases hsvc2 : crawlService.checkTaskStatus ft with
        | error e => rw [hsvc2] at hsvc; exact Except.noConfusion hsvc
        | ok d2 =>
            rw [hsvc2] at hsvc
            injection hsvc with hh2
            subst hh2
            exact ⟨by simp [hc, hf], by simp [hc, hf], by simp [hc, hf]⟩
  · intro sys iid itv ft d hfind hsvc hc
    unfold App.pollTick
    cases hfind2 : sys.intervals.find? (fun i => i.iid == iid) with
    | none => rw [hfind2] at hfind; exact Option.noConfusion hfind
    | some itv2 =>
        rw [hfind2] at hfind
        injection hfind with hh
        subst hh
        cases hsvc2 : crawlService.checkTaskStatus ft with
        | error e => rw [hsvc2] at hsvc; exact Except.noConfusion hsvc
        | ok d2 =>
            rw [hsvc2] at hsvc
            injection hsvc with hh2
            subst hh2
            exact ⟨by simp [hc, find?_filter_ne], by simp [hc], by simp [hc], by simp [hc]⟩

/-- C6: a start call with a seed the validator rejects is refused
synchronously: no network call is issued, no interval is created, the task
id, task status, crawled data and loading flag are untouched, and the caller
receives the validation message, which differs from every network error
message and from the task failure message. -/
theorem invalidSeedRefusedSynchronously :
    ∀ (sys : App.Sys) (t : Transport StartResponse),
      validateUrl sys.app.startUrl = false →
      (App.startCrawl sys t).calls = sys.calls ∧
      (App.startCrawl sys t).intervals = sys.intervals ∧
      (App.startCrawl sys t).app.taskId = sys.app.taskId ∧
      (App.startCrawl sys t).app.taskStatus = sys.app.taskStatus ∧
      (App.startCrawl sys t).app.crawledData = sys.app.crawledData ∧
      (App.startCrawl sys t).app.loading = sys.app.loading ∧
      (App.startCrawl sys t).app.errorMessage = "Invalid URL." ∧
      (App.startCrawl sys t).app.isUrlValid = false ∧
      (∀ m : String, "Invalid URL." ≠ "Network error: " ++ m) ∧
      "Invalid URL." ≠ "Task failed." := by
  intro sys t h
  unfold App.startCrawl
  rw [if_pos h]
  exact ⟨rfl, rfl, rfl, rfl, rfl, rfl, rfl, rfl, invalid_ne_network, by decide⟩

/-- C7: a failed poll fetch is terminal and never retried: the loop interval
is cleared, the network error message is stored, loading is cleared, the
status and fetch log are otherwise as before the failure, and every later
tick of that interval is a no-op, so no further status fetch is ever issued
for that lifecycle. -/
theorem pollErrorTerminal :
    ∀ (sys : App.Sys) (iid : Nat) (itv : App.Interval) (ft : Transport StatusResponse)
      (e : String),
      sys.intervals.find? (fun i => i.iid == iid) = some itv →
      crawlService.checkTaskStatus ft = .error e →
      (App.pollTick sys iid ft).intervals.find? (fun i => i.iid == iid) = none ∧
      (App.pollTick sys iid ft).app.errorMessage = "Network error: " ++ e ∧
      (App.pollTick sys iid ft).app.loading = false ∧
      (App.pollTick sys iid ft).app.taskStatus = sys.app.taskStatus ∧
      (App.pollTick sys iid ft).calls =
        sys.calls ++ [.statusFetch itv.arg (itv.period * (itv.fires + 1))] ∧
      ∀ ft2 : Transport StatusResponse,
        App.pollTick (App.pollTick sys iid ft) iid ft2 = App.pollTick sys iid ft := by
  intro sys iid itv ft e hfind hsvc
  have hstep : App.pollTick sys iid ft =
      { sys with
        app := { sys.app with errorMessage := "Network error: " ++ e, loading := false }
        intervals := sys.intervals.filter (fun i => i.iid != iid)
        calls := sys.calls ++ [.statusFetch itv.arg (itv.period * (itv.fires + 1))] } := by
    unfold App.pollTick
    cases hfind2 : sys.intervals.find? (fun i => i.iid == iid) with
    | none => rw [hfind2] at hfind; exact Option.noConfusion hfind
    | some itv2 =>
        rw [hfind2] at hfind
        injection hfind with hh
        subst hh
        cases hsvc2 : crawlService.checkTaskStatus ft with
        | ok d => rw [hsvc2] at hsvc; exact Except.noConfusion hsvc
        | error e2 =>
            rw [hsvc2] at hsvc
            injection hsvc with hh2
            subst hh2
            rfl
  rw [hstep]
  refine ⟨find?_filter_ne _ _, rfl, rfl, rfl, rfl, ?_⟩
  intro ft2
  exact pollTick_of_find_none _ _ _ (find?_filter_ne sys.intervals iid)

/-- C10: a failed submission is atomic with respect to task state: no
interval is ever created by that call, the task id, task status and crawled
data are unchanged, the network error message is stored, loading is
cleared, and the only network call issued is the submission itself. -/
theorem submitFailureAtomic :
    ∀ (sys : App.Sys) (t : Transport StartResponse) (e : String),
      validateUrl sys.app.startUrl = true →
      crawlService.startCrawl t = .error e →
      (App.startCrawl sys t).intervals = sys.intervals ∧
      (App.startCrawl sys t).nextIid = sys.nextIid ∧
      (App.startCrawl sys t).app.taskId = sys.app.taskId ∧
      (App.startCrawl sys t).app.taskStatus = sys.app.taskStatus ∧
      (App.startCrawl sys t).app.crawledData = sys.app.crawledData ∧
      (App.startCrawl sys t).app.errorMessage = "Network error: " ++ e ∧
      (App.startCrawl sys t).app.loading = false ∧
      (App.startCrawl sys t).calls = sys.calls ++ [.submit sys.app.startUrl] := by
  intro sys t e h hsvc
  have h1 : ¬ validateUrl sys.app.startUrl = false := by simp [h]
  unfold App.startCrawl
  rw [if_neg h1, hsvc]
  exact ⟨rfl, rfl, rfl, rfl, rfl, rfl, rfl, rfl⟩

/-- Witness for C1 amended: with a live poll loop for t1, a failing second
start call keeps that loop live, and a successful fetch of that loop writes
its status into the snapshot. -/
theorem startCancelsNoInterval_witness :
    ({ iid := 0, arg := some "t1", period := 2000, fires := 0 } : App.Interval) ∈
      (App.startCrawl loopSys (.error "boom")).intervals ∧
    (App.pollTick loopSys 0 (.ok ⟨200, { status := some "in_progress" }⟩)).app.taskStatus =
      some "in_progress" := by
  constructor
  · exact (startCancelsNoInterval loopSys (.error "boom")).1 _ (by decide)
  · exact (startCancelsNoInterval loopSys (.error "boom")).2 0
      (.ok ⟨200, { status := some "in_progress" }⟩) { status := some "in_progress" }
      rfl (by decide)

/-- Witness for C2 amended: a 2xx response body is returned verbatim, a
successful start stores the task_id field as the handle, and the fetch of
the live loop is issued for the stored value. -/
theorem clientReturnsBodyVerbatim_witness :
    crawlService.startCrawl (.ok ⟨200, okStartBody⟩) = .ok okStartBody ∧
    (App.startCrawl seedSys (.ok ⟨200, okStartBody⟩)).app.taskId = some "t1" ∧
    ∃ time : Nat, (App.pollTick loopSys 0 (.error "x")).calls =
      loopSys.calls ++ [.statusFetch (some "t1") time] := by
  refine ⟨clientReturnsBodyVerbatim.1 ⟨200, okStartBody⟩ (by decide), ?_, ?_⟩
  · exact (clientReturnsBodyVerbatim.2.1 seedSys (.ok ⟨200, okStartBody⟩) okStartBody
      (by decide) rfl).1
  · exact clientReturnsBodyVerbatim.2.2 loopSys 0
      { iid := 0, arg := some "t1", period := 2000, fires := 0 } (.error "x") (by decide)

/-- Witness for C3 amended: a tick for a dead interval identifier does
nothing, a completed fetch clears the live interval, a failing start keeps
the previous task status, and a successful start stores the new task_id. -/
theorem terminalAndCarryOver_witness :
    App.pollTick loopSys 5 (.error "x") = loopSys ∧
    (App.pollTick loopSys 0 (.ok ⟨200, { status := some "completed" }⟩)).intervals.find?
      (fun i => i.iid == 0) = none ∧
    (App.startCrawl loopSys (.error "x")).app.taskStatus = loopSys.app.taskStatus ∧
    (App.startCrawl seedSys (.ok ⟨200, okStartBody⟩)).app.taskId = some "t1" := by
  refine ⟨?_, ?_, ?_, ?_⟩
  · exact terminalAndCarryOver.1 loopSys 5 (.error "x") (by decide)
  · exact terminalAndCarryOver.2.1 loopSys 0 (.ok ⟨200, { status := some "completed" }⟩)
      { status := some "completed" } rfl (Or.inl rfl)
  · exact (terminalAndCarryOver.2.2.1 loopSys (.error "x")).1
  · exact terminalAndCarryOver.2.2.2 seedSys (.ok ⟨200, okStartBody⟩) okStartBody
      (by decide) rfl

/-- Witness for C5: a successful start creates the 2000 ms interval for the
stored id, an in_progress fetch stores the status, and a completed fetch
clears loading. -/
theorem pollLoopCadence_witness :
    (App.startCrawl seedSys (.ok ⟨200, okStartBody⟩)).intervals = seedSys.intervals ++
      [{ iid := seedSys.nextIid, arg := okStartBody.task_id, period := 2000, fires := 0 }] ∧
    (App.pollTick loopSys 0 (.ok ⟨200, { status := some "in_progress" }⟩)).app.taskStatus =
      some "in_progress" ∧
    (App.pollTick loopSys 0
      (.ok ⟨200, { status := some "completed", crawled_data := some staleData }⟩)).app.loading =
      false := by
  refine ⟨?_, ?_, ?_⟩
  · exact pollLoopCadence.1 seedSys (.ok ⟨200, okStartBody⟩) okStartBody (by decide) rfl
  · exact (pollLoopCadence.2.1 loopSys 0 { iid := 0, arg := some "t1", period := 2000, fires := 0 }
      (.ok ⟨200, { status := some "in_progress" }⟩) { status := some "in_progress" }
      (by decide) rfl (by decide) (by decide)).1
  · exact (pollLoopCadence.2.2.1 loopSys 0 { iid := 0, arg := some "t1", period := 2000, fires := 0 }
      (.ok ⟨200, { status := some "completed", crawled_data := some staleData }⟩)
      { status := some "completed", crawled_data := some staleData }
      (by decide) rfl rfl).2.2.2

/-- Witness for C6: with the seed of Scenario B typed in, a start call
leaves the call log empty and reports the validation message. -/
theorem invalidSeedRefusedSynchronously_witness :
    (App.startCrawl invalidSys (.error "x")).calls = invalidSys.calls ∧
    (App.startCrawl invalidSys (.error "x")).app.errorMessage = "Invalid URL." := by
  refine ⟨?_, ?_⟩
  · exact (invalidSeedRefusedSynchronously invalidSys (.error "x") (by decide)).1
  · exact (invalidSeedRefusedSynchronously invalidSys (.error "x") (by decide)).2.2.2.2.2.2.1

/-- Witness for C7: a transport failure on the first poll of the t1 loop
stores the network error message and leaves no live interval behind. -/
theorem pollErrorTerminal_witness :
    (App.pollTick loopSys 0 (.error "boom")).app.errorMessage = "Network error: " ++ "boom" ∧
    (App.pollTick loopSys 0 (.error "boom")).intervals.find? (fun i => i.iid == 0) = none := by
  refine ⟨?_, ?_⟩
  · exact (pollErrorTerminal loopSys 0 { iid := 0, arg := some "t1", period := 2000, fires := 0 }
      (.error "boom") "boom" (by decide) rfl).2.1
  · exact (pollErrorTerminal loopSys 0 { iid := 0, arg := some "t1", period := 2000, fires := 0 }
      (.error "boom") "boom" (by decide) rfl).1

/-- Witness for C8: a 200 submission returns its body, a 404 status fetch
reports the not-found message, and a 500 status fetch reports an HTTP
error. -/
theorem taskClientErrors_witness :
    crawlService.startCrawl (.ok ⟨200, okStartBody⟩) = .ok okStartBody ∧
    crawlService.checkTaskStatus (.ok ⟨404, ({} : StatusResponse)⟩) = .error "Task not found." ∧
    crawlService.checkTaskStatus (.ok ⟨500, ({} : StatusResponse)⟩) =
      .error ("HTTP error! status: " ++ toString (500 : Nat)) := by
  refine ⟨?_, ?_, ?_⟩
  · exact taskClientErrors.1 ⟨200, okStartBody⟩ (by decide)
  · exact taskClientErrors.2.2.2.2.1 ⟨404, ({} : StatusResponse)⟩ rfl
  · exact taskClientErrors.2.2.2.2.2.1 ⟨500, ({} : StatusResponse)⟩ (by decide) (by decide)

/-- Witness for C10: a transport failure during submission of a valid seed
leaves no interval, stores the network error message, and logs exactly the
submission call. -/
theorem submitFailureAtomic_witness :
    (App.startCrawl seedSys (.error "boom")).intervals = seedSys.intervals ∧
    (App.startCrawl seedSys (.error "boom")).app.errorMessage = "Network error: " ++ "boom" ∧
    (App.startCrawl seedSys (.error "boom")).calls =
      seedSys.calls ++ [.submit seedSys.app.startUrl] := by
  refine ⟨?_, ?_, ?_⟩
  · exact (submitFailureAtomic seedSys (.error "boom") "boom" (by decide) rfl).1
  · exact (submitFailureAtomic seedSys (.error "boom") "boom" (by decide) rfl).2.2.2.2.2.1
  · exact (submitFailureAtomic seedSys (.error "boom") "boom" (by decide) rfl).2.2.2.2.2.2.2

end Crawler
